import Mathlib

/-!
Shallow embedding of the rust-port-scanner scan engine:
domain model (`src/domain`), configuration (`src/scanning/config.rs`),
strategies (`src/scanning/strategy.rs`), executors
(`src/scanning/executor.rs`), detectors (`src/application/detect_os.rs`,
`src/application/detect_service.rs`) and network helpers
(`src/infrastructure/network.rs`), together with theorems settling the
specification claims about them.

Machine integers (`u16`, `u64`, `u128`, `usize`) are modelled as `Nat`;
all scanner arithmetic on them stays far from the wrap boundaries, and
`Duration` values are modelled by their millisecond count (every
`Duration` the scanner builds comes from `Duration::from_millis`).
-/

namespace PortScanner

/-- Rust `type Port = u16` from `src/domain/port.rs`. -/
abbrev Port := Nat

/-- Rust `enum PortStatus` from `src/domain/port.rs`. -/
inductive PortStatus where
  | Open : PortStatus
  | Closed : PortStatus
  | Filtered : PortStatus
  | Error : String → PortStatus
deriving DecidableEq, Repr

namespace PortStatus

/-- Rust `PortStatus::is_open`. -/
def is_open : PortStatus → Bool
  | .Open => true
  | _ => false

/-- Rust `PortStatus::is_closed`. -/
def is_closed : PortStatus → Bool
  | .Closed => true
  | _ => false

/-- Rust `PortStatus::is_filtered`. -/
def is_filtered : PortStatus → Bool
  | .Filtered => true
  | _ => false

/-- Rust `PortStatus::is_error`. -/
def is_error : PortStatus → Bool
  | .Error _ => true
  | _ => false

end PortStatus

/-- Rust `struct ServiceVersion` from `src/domain/service.rs`. -/
structure ServiceVersion where
  service_name : String
  version : Option String
  banner : Option String
  protocol : String
deriving DecidableEq, Repr

namespace ServiceVersion

/-- Rust `ServiceVersion::unknown`. -/
def unknown : ServiceVersion :=
  { service_name := "unknown", version := none, banner := none, protocol := "tcp" }

/-- Rust `ServiceVersion::new`. -/
def new (service protocol : String) : ServiceVersion :=
  { service_name := service, version := none, banner := none, protocol := protocol }

/-- Rust `ServiceVersion::with_version`. -/
def with_version (s : ServiceVersion) (v : String) : ServiceVersion :=
  { s with version := some v }

/-- Rust `ServiceVersion::with_banner`. -/
def with_banner (s : ServiceVersion) (b : String) : ServiceVersion :=
  { s with banner := some b }

end ServiceVersion

/-- Rust `struct OSInfo` from `src/domain/os.rs`. -/
structure OSInfo where
  os_name : Option String
  os_version : Option String
  os_build : Option String
  computer_name : Option String
  domain : Option String
  smb_version : Option String
deriving DecidableEq, Repr

namespace OSInfo

/-- Rust `OSInfo::new`. -/
def new : OSInfo :=
  { os_name := none, os_version := none, os_build := none,
    computer_name := none, domain := none, smb_version := none }

/-- Rust `OSInfo::with_os_name`. -/
def with_os_name (o : OSInfo) (n : String) : OSInfo := { o with os_name := some n }

/-- Rust `OSInfo::with_os_version`. -/
def with_os_version (o : OSInfo) (v : String) : OSInfo := { o with os_version := some v }

/-- Rust `OSInfo::with_smb_version`. -/
def with_smb_version (o : OSInfo) (v : String) : OSInfo := { o with smb_version := some v }

/-- Rust `OSInfo::is_detected`. -/
def is_detected (o : OSInfo) : Bool :=
  o.os_name.isSome || o.os_version.isSome || o.computer_name.isSome || o.smb_version.isSome

end OSInfo

/-- Rust `struct PortScanResult` from `src/domain/scan_result.rs`. -/
structure PortScanResult where
  port : Port
  status : PortStatus
  service_version : Option ServiceVersion
  os_info : Option OSInfo
deriving DecidableEq, Repr

namespace PortScanResult

/-- Rust `PortScanResult::new`. -/
def new (port : Port) (status : PortStatus) : PortScanResult :=
  { port := port, status := status, service_version := none, os_info := none }

/-- Rust `PortScanResult::with_version`. -/
def with_version (r : PortScanResult) (v : ServiceVersion) : PortScanResult :=
  { r with service_version := some v }

/-- Rust `PortScanResult::with_os_info`. -/
def with_os_info (r : PortScanResult) (o : OSInfo) : PortScanResult :=
  { r with os_info := some o }

end PortScanResult

/-- Rust `struct ScanResults` from `src/domain/scan_result.rs`. -/
structure ScanResults where
  results : List PortScanResult
  total_ports : Nat
  open_ports : Nat
  closed_ports : Nat
  filtered_ports : Nat
  error_ports : Nat
deriving DecidableEq, Repr

namespace ScanResults

/-- Rust `ScanResults::new`: `total` is `results.len()` and each count is a
`filter(..).count()` over the corresponding `PortStatus` predicate. -/
def new (results : List PortScanResult) : ScanResults :=
  { results := results
    total_ports := results.length
    open_ports := (results.filter (fun r => r.status.is_open)).length
    closed_ports := (results.filter (fun r => r.status.is_closed)).length
    filtered_ports := (results.filter (fun r => r.status.is_filtered)).length
    error_ports := (results.filter (fun r => r.status.is_error)).length }

end ScanResults

/-- Each `PortScanResult` satisfies exactly one of the four status predicates. -/
lemma status_partition (s : PortStatus) :
    (if s.is_open then 1 else 0) + (if s.is_closed then 1 else 0)
      + (if s.is_filtered then 1 else 0) + (if s.is_error then 1 else 0) = 1 := by
  cases s <;> simp [PortStatus.is_open, PortStatus.is_closed,
    PortStatus.is_filtered, PortStatus.is_error]

/-- C4: for every vector of `PortScanResult`s, the `ScanResults` built from it
by `ScanResults::new` satisfies
`total_ports = open_ports + closed_ports + filtered_ports + error_ports`,
with `total_ports` the number of results and each count the number of results
whose status lies in the corresponding `PortStatus` variant: the four variants
partition every result. -/
theorem scanresults_counts_partition (rs : List PortScanResult) :
    (ScanResults.new rs).total_ports
        = (ScanResults.new rs).open_ports + (ScanResults.new rs).closed_ports
          + (ScanResults.new rs).filtered_ports + (ScanResults.new rs).error_ports
      ∧ (ScanResults.new rs).total_ports = rs.length
      ∧ (ScanResults.new rs).open_ports
          = (rs.filter (fun r => r.status.is_open)).length
      ∧ (ScanResults.new rs).closed_ports
          = (rs.filter (fun r => r.status.is_closed)).length
      ∧ (ScanResults.new rs).filtered_ports
          = (rs.filter (fun r => r.status.is_filtered)).length
      ∧ (ScanResults.new rs).error_ports
          = (rs.filter (fun r => r.status.is_error)).length := by
  refine ⟨?_, rfl, rfl, rfl, rfl, rfl⟩
  show rs.length = _
  induction rs with
  | nil => simp [ScanResults.new]
  | cons r rest ih =>
      simp only [ScanResults.new, List.filter_cons, List.length_cons] at ih ⊢
      have h := status_partition r.status
      by_cases h1 : r.status.is_open <;>
        by_cases h2 : r.status.is_closed <;>
          by_cases h3 : r.status.is_filtered <;>
            by_cases h4 : r.status.is_error <;>
              simp [h1, h2, h3, h4] at h ⊢ <;> omega

/-- Rust `MIN_PORT` from `src/constants.rs`. -/
def MIN_PORT : Nat := 1

/-- Rust `MAX_PORT` from `src/constants.rs`. -/
def MAX_PORT : Nat := 65535

/-- Rust `DELAY_JITTER_PERCENT` from `src/constants.rs`. -/
def DELAY_JITTER_PERCENT : Nat := 50

/-- Rust `enum ConfigError` from `src/errors.rs`. -/
inductive ConfigError where
  | MissingField : String → ConfigError
  | InvalidTimeout : Nat → ConfigError
  | InvalidThreadCount : Nat → ConfigError
  | InvalidScanMode : ConfigError
deriving DecidableEq, Repr

/-- Rust `enum ScanMode` from `src/scanning/config.rs`. -/
inductive ScanMode where
  | Range : Port → Port → ScanMode
  | CommonPorts : ScanMode
  | CustomList : List Port → ScanMode
deriving DecidableEq, Repr

namespace ScanMode

/-- Rust `ScanMode::validate` from `src/scanning/config.rs`: a `Range` fails when
`start > end` or a bound is outside `[MIN_PORT, MAX_PORT]`; `CommonPorts`
always passes; a `CustomList` fails when empty or containing an out-of-range
port.  The per-element loop over the custom list is rendered as `List.all`. -/
def validate : ScanMode → Except ConfigError Unit
  | .Range start «end» =>
      if start > «end» then .error .InvalidScanMode
      else if start < MIN_PORT || «end» > MAX_PORT then .error .InvalidScanMode
      else .ok ()
  | .CommonPorts => .ok ()
  | .CustomList ports =>
      if ports.isEmpty then .error .InvalidScanMode
      else if ports.all (fun port => decide (MIN_PORT ≤ port) && decide (port ≤ MAX_PORT))
        then .ok ()
        else .error .InvalidScanMode

end ScanMode

/-- The target address: opaque data for the engine (`IpAddr` in the source);
no claim inspects it. -/
abbrev IpAddr := String

/-- Rust `struct ScanConfig` from `src/scanning/config.rs`.  `timeout` and
`delay_between_probes` are Rust `Duration`s; every `Duration` the program
builds for them comes from `Duration::from_millis`, so they are modelled by
their millisecond counts. -/
structure ScanConfig where
  target_ip : IpAddr
  scan_mode : ScanMode
  timeout_ms : Nat
  verbose : Bool
  detect_versions : Bool
  detect_os : Bool
  parallel : Bool
  thread_count : Nat
  randomize_source_port : Bool
  delay_between_probes_ms : Option Nat
deriving DecidableEq, Repr

namespace ScanConfig

/-- Rust `ScanConfig::validate` from `src/scanning/config.rs`: the scan mode is
validated first (`?` propagates its error), then `timeout.as_millis() == 0`
and `parallel && thread_count == 0` are rejected. -/
def validate (c : ScanConfig) : Except ConfigError Unit :=
  match c.scan_mode.validate with
  | .error e => .error e
  | .ok _ =>
      if c.timeout_ms = 0 then .error (ConfigError.InvalidTimeout c.timeout_ms)
      else if c.parallel ∧ c.thread_count = 0 then
        .error (ConfigError.InvalidThreadCount c.thread_count)
      else .ok ()

/-- Rust `ScanConfig::get_ports` from `src/scanning/config.rs`. -/
def get_ports (c : ScanConfig) : List Port :=
  match c.scan_mode with
  | .Range start «end» => (List.range («end» + 1 - start)).map (fun i => start + i)
  | .CommonPorts =>
      [21, 22, 23, 25, 53, 80, 110, 111, 135, 139, 143, 443, 445, 993, 995,
       1723, 3306, 3389, 5432, 5900, 6379, 8080, 8443, 8888, 9090, 27017]
  | .CustomList ports => ports

/-- Rust `ScanConfig::is_stealth_enabled` from `src/scanning/config.rs`. -/
def is_stealth_enabled (c : ScanConfig) : Bool :=
  c.randomize_source_port || c.delay_between_probes_ms.isSome

end ScanConfig

/-- C5: configuration validation fails exactly on the invalid shapes (scan
never started aside): `ScanConfig::validate` succeeds iff the scan mode is
valid, the timeout is nonzero, and not (`parallel` with `thread_count == 0`);
`Range{start:100, end:50}` fails, `Range{start:0, end:10}` fails,
`CustomList([])` fails, `CustomList([0])` fails, a zero timeout fails,
`thread_count == 0` while `parallel` fails, and a `CommonPorts` config with
any timeout > 0 (and no thread-count violation) succeeds. -/
theorem config_validation_exact (c : ScanConfig) :
    (c.validate = .ok () ↔
        c.scan_mode.validate = .ok () ∧ c.timeout_ms ≠ 0
          ∧ ¬(c.parallel = true ∧ c.thread_count = 0))
      ∧ (ScanMode.Range 100 50).validate = .error .InvalidScanMode
      ∧ (ScanMode.Range 0 10).validate = .error .InvalidScanMode
      ∧ (ScanMode.CustomList []).validate = .error .InvalidScanMode
      ∧ (ScanMode.CustomList [0]).validate = .error .InvalidScanMode
      ∧ (c.timeout_ms = 0 → c.validate ≠ .ok ())
      ∧ (c.parallel = true → c.thread_count = 0 → c.validate ≠ .ok ())
      ∧ (c.scan_mode = .CommonPorts → 0 < c.timeout_ms
          → ¬(c.parallel = true ∧ c.thread_count = 0) → c.validate = .ok ()) := by
  have hiff : c.validate = .ok () ↔
      c.scan_mode.validate = .ok () ∧ c.timeout_ms ≠ 0
        ∧ ¬(c.parallel = true ∧ c.thread_count = 0) := by
    constructor
    · intro h
      unfold ScanConfig.validate at h
      cases hm : c.scan_mode.validate with
      | error e => simp [hm] at h
      | ok u =>
          simp only [hm] at h
          by_cases ht : c.timeout_ms = 0
          · simp [ht] at h
          · by_cases hp : c.parallel = true ∧ c.thread_count = 0
            · simp [ht, hp] at h
            · exact ⟨by cases u; rfl, ht, hp⟩
    · rintro ⟨hm, ht, hp⟩
      unfold ScanConfig.validate
      rw [hm]
      simp [ht, hp]
  refine ⟨hiff, rfl, rfl, rfl, rfl, ?_, ?_, ?_⟩
  · intro ht h
    exact ((hiff.mp h).2.1 ht).elim
  · intro hp htc h
    exact ((hiff.mp h).2.2 ⟨hp, htc⟩).elim
  · intro hm ht hp
    refine hiff.mpr ⟨?_, by omega, hp⟩
    rw [hm]
    rfl

/-- Witness for C5 at a concrete configuration: `CommonPorts`, 500 ms timeout,
sequential — validation succeeds; and all the listed invalid shapes fail. -/
theorem config_validation_exact_witness :
    ({ target_ip := "127.0.0.1", scan_mode := .CommonPorts, timeout_ms := 500,
       verbose := false, detect_versions := false, detect_os := false,
       parallel := false, thread_count := 8, randomize_source_port := false,
       delay_between_probes_ms := none } : ScanConfig).validate = .ok () := by
  have h := (config_validation_exact
    { target_ip := "127.0.0.1", scan_mode := .CommonPorts, timeout_ms := 500,
      verbose := false, detect_versions := false, detect_os := false,
      parallel := false, thread_count := 8, randomize_source_port := false,
      delay_between_probes_ms := none }).2.2.2.2.2.2.2
  exact h rfl (by decide) (by decide)

namespace ParallelExecutor

/-- Rust `ParallelExecutor::new` from `src/scanning/executor.rs`:
`max_concurrent.min(2000).max(10)`. -/
def new (max_concurrent : Nat) : Nat :=
  max (min max_concurrent 2000) 10

/-- The result-collection loop of `ParallelExecutor::scan_ports`
(`src/scanning/executor.rs`, lines 57-63): one task is spawned per port and
`JoinSet::join_next` yields the finished tasks one by one in completion order
(`completion`, a permutation of the requested port list); an `Ok` join pushes
the task result (`task_outcome p = some r`, where `r` is the strategy result
for `p`) and an `Err` join — the task for `p` panicked — pushes nothing
(`task_outcome p = none`). -/
def scan_ports (completion : List Port)
    (task_outcome : Port → Option PortScanResult) : List PortScanResult :=
  match completion with
  | [] => []
  | p :: rest =>
      match task_outcome p with
      | some result => result :: scan_ports rest task_outcome
      | none => scan_ports rest task_outcome

end ParallelExecutor

namespace SequentialExecutor

/-- Rust `SequentialExecutor::scan_ports` from `src/scanning/executor.rs`: the
ports are scanned one at a time in the supplied order and every result is
pushed. -/
def scan_ports (ports : List Port) (scan : Port → PortScanResult) :
    List PortScanResult :=
  ports.map scan

end SequentialExecutor

/-- Rust `PortScanner::scan_all` passes the executor output to
`ScanResults::from`, which is `ScanResults::new`
(`src/application/scan_ports.rs`, line 52; `src/domain/scan_result.rs`,
lines 92-96).  The effective concurrency bound it hands the parallel executor
is `ParallelExecutor::new(thread_count * 4)`
(`src/application/scan_ports.rs`, line 44). -/
def scan_all_max_concurrent (thread_count : Nat) : Nat :=
  ParallelExecutor.new (thread_count * 4)

/-- With no panics, collecting in completion order is mapping the strategy
over the completion order. -/
lemma scan_ports_no_panic (completion : List Port) (scan : Port → PortScanResult) :
    ParallelExecutor.scan_ports completion (fun p => some (scan p))
      = completion.map scan := by
  induction completion with
  | nil => rfl
  | cons p rest ih => simp [ParallelExecutor.scan_ports, ih]

/-- Panicking tasks contribute nothing; the others contribute exactly their
strategy result, in completion order. -/
lemma scan_ports_with_panics (completion : List Port)
    (scan : Port → PortScanResult) (panics : Port → Bool) :
    ParallelExecutor.scan_ports completion
        (fun p => if panics p then none else some (scan p))
      = (completion.filter (fun p => !panics p)).map scan := by
  induction completion with
  | nil => rfl
  | cons p rest ih =>
      by_cases hp : panics p <;>
        simp [ParallelExecutor.scan_ports, List.filter_cons, hp, ih]

/-- C1 (amended): over any completion order of the workers, when no task
panics the parallel executor returns exactly one `PortScanResult` per
requested port — the collection is a permutation of the per-port strategy
results, its ports are a permutation of the requested ports (no duplicates,
no omissions) and its length is `len(ports)`; and when some tasks panic, the
panicked ports' results are dropped from the returned collection (not
converted to `Error` results) while every non-panicking port still yields its
normal result. -/
theorem executor_one_result_per_port (ports completion : List Port)
    (scan : Port → PortScanResult) (panics : Port → Bool)
    (hperm : completion.Perm ports) (hport : ∀ p, (scan p).port = p) :
    (ParallelExecutor.scan_ports completion (fun p => some (scan p))).Perm
        (ports.map scan)
      ∧ ((ParallelExecutor.scan_ports completion
            (fun p => some (scan p))).map PortScanResult.port).Perm ports
      ∧ (ParallelExecutor.scan_ports completion
            (fun p => some (scan p))).length = ports.length
      ∧ ParallelExecutor.scan_ports completion
            (fun p => if panics p then none else some (scan p))
          = (completion.filter (fun p => !panics p)).map scan := by
  have hmap : ParallelExecutor.scan_ports completion (fun p => some (scan p))
      = completion.map scan := scan_ports_no_panic completion scan
  have hp1 : (ParallelExecutor.scan_ports completion
      (fun p => some (scan p))).Perm (ports.map scan) := by
    rw [hmap]; exact hperm.map scan
  refine ⟨hp1, ?_, ?_, scan_ports_with_panics completion scan panics⟩
  · have := hp1.map PortScanResult.port
    rw [List.map_map] at this
    have hid : ports.map (PortScanResult.port ∘ scan) = ports := by
      have : ∀ p ∈ ports, (PortScanResult.port ∘ scan) p = p := fun p _ => hport p
      simpa using List.map_congr_left this ▸ (by simp : ports.map id = ports)
    rwa [hid] at this
  · rw [hp1.length_eq, List.length_map]

/-- Witness for C1 at a concrete input: ports `[80, 22]`, completion order
`[22, 80]`, the strategy marking every port `Open`, no panics (and a panic
predicate that never fires for the last conjunct). -/
theorem executor_one_result_per_port_witness :
    (ParallelExecutor.scan_ports [22, 80]
        (fun p => some (PortScanResult.new p PortStatus.Open))).Perm
        ([80, 22].map (fun p => PortScanResult.new p PortStatus.Open))
      ∧ ((ParallelExecutor.scan_ports [22, 80]
            (fun p => some (PortScanResult.new p PortStatus.Open))).map
            PortScanResult.port).Perm [80, 22]
      ∧ (ParallelExecutor.scan_ports [22, 80]
            (fun p => some (PortScanResult.new p PortStatus.Open))).length
          = ([80, 22] : List Port).length
      ∧ ParallelExecutor.scan_ports [22, 80]
            (fun p => if (fun _ => false : Port → Bool) p then none
              else some (PortScanResult.new p PortStatus.Open))
          = (([22, 80] : List Port).filter
              (fun p => !(fun _ => false : Port → Bool) p)).map
              (fun p => PortScanResult.new p PortStatus.Open) :=
  executor_one_result_per_port [80, 22] [22, 80]
    (fun p => PortScanResult.new p PortStatus.Open) (fun _ => false)
    (by decide) (fun _ => rfl)

/-- Counterexample to C1 as stated: ports `[22, 80]` are requested and the
task for port 22 panics (its join yields `Err`); the executor returns a
single result, for port 80 only — the panicked port is omitted instead of
yielding an `Error` result, so a scan of 2 ports returns 1 result. -/
theorem executor_panic_drops_result :
    (ParallelExecutor.scan_ports [22, 80]
        (fun p => if p = 22 then none
          else some (PortScanResult.new p PortStatus.Open))).map
        PortScanResult.port = [80]
      ∧ (ParallelExecutor.scan_ports [22, 80]
          (fun p => if p = 22 then none
            else some (PortScanResult.new p PortStatus.Open))).length
        ≠ ([22, 80] : List Port).length := by
  constructor
  · rfl
  · decide

/-- The returned collection, sorted by port ascending: the ports along the
list are pairwise nondecreasing. -/
def sorted_by_port (rs : List PortScanResult) : Prop :=
  List.Pairwise (fun a b => a.port ≤ b.port) rs

instance (rs : List PortScanResult) : Decidable (sorted_by_port rs) := by
  unfold sorted_by_port; infer_instance

/-- C2 (amended): the parallel executor performs no sort — it returns the
aggregated results exactly in worker completion order (here with no panics:
the strategy results mapped over the completion order).  The returned
collection is therefore port-ordered only when the completion order happens
to be; the sequential executor returns results in the supplied port order. -/
theorem executor_returns_completion_order (completion : List Port)
    (scan : Port → PortScanResult) :
    ParallelExecutor.scan_ports completion (fun p => some (scan p))
        = completion.map scan
      ∧ SequentialExecutor.scan_ports completion scan = completion.map scan :=
  ⟨scan_ports_no_panic completion scan, rfl⟩

/-- Counterexample to C2 as stated: for the port list `[22, 80]` there is a
completion order, `[80, 22]` (port 80 finishes first), on which the parallel
executor returns `[result 80, result 22]` — not sorted in ascending port
order. -/
theorem executor_output_not_sorted :
    (([80, 22] : List Port).Perm [22, 80])
      ∧ ¬ sorted_by_port
          (ParallelExecutor.scan_ports [80, 22]
            (fun p => some (PortScanResult.new p PortStatus.Open))) := by
  constructor
  · decide
  · intro h
    have : (80 : Nat) ≤ 22 := by
      have h' : sorted_by_port
          [PortScanResult.new 80 PortStatus.Open,
           PortScanResult.new 22 PortStatus.Open] := h
      unfold sorted_by_port at h'
      exact (List.pairwise_cons.mp h').1
        (PortScanResult.new 22 PortStatus.Open) (by simp)
    omega

/-- The `std::io::ErrorKind` values the engine distinguishes
(`src/infrastructure/network.rs`): `ConnectionRefused`, `TimedOut`, and the
remaining kinds collapsed into representatives (`ConnectionReset`,
`PermissionDenied`, `Other`). -/
inductive IOErrorKind where
  | ConnectionRefused : IOErrorKind
  | TimedOut : IOErrorKind
  | ConnectionReset : IOErrorKind
  | PermissionDenied : IOErrorKind
  | Other : IOErrorKind
deriving DecidableEq, Repr

/-- A `std::io::Error`: its kind plus the string its `Display`
implementation (`e.to_string()`) produces. -/
structure IOError where
  kind : IOErrorKind
  message : String
deriving DecidableEq, Repr

namespace network_utils

/-- Rust `network_utils::is_connection_refused` from
`src/infrastructure/network.rs`: `error.kind() == ErrorKind::ConnectionRefused`. -/
def is_connection_refused (error : IOError) : Bool :=
  error.kind = IOErrorKind.ConnectionRefused

/-- Rust `network_utils::is_timeout` from `src/infrastructure/network.rs`:
`error.kind() == ErrorKind::TimedOut`. -/
def is_timeout (error : IOError) : Bool :=
  error.kind = IOErrorKind.TimedOut

/-- Rust `network_utils::random_delay_jitter` from `src/infrastructure/network.rs`.
`timestamp` is the nanosecond clock value, `base_delay` is given by its
millisecond count `base_delay_ms`.  The code computes
`jitter_range = base_delay.as_millis() * jitter_percent / 100` and then
`timestamp % (jitter_range * 2)`: when `jitter_range = 0` this is a remainder
by zero, which panics in Rust — modelled as `none`.  Otherwise the jittered
delay `(base_delay_ms + jitter).max(0)` milliseconds is returned, with
`jitter = timestamp % (jitter_range * 2) - jitter_range`. -/
def random_delay_jitter (timestamp base_delay_ms jitter_percent : Nat) :
    Option Nat :=
  let jitter_range := base_delay_ms * jitter_percent / 100
  if jitter_range * 2 = 0 then
    none
  else
    let jitter : Int := ((timestamp % (jitter_range * 2) : Nat) : Int)
      - (jitter_range : Int)
    let new_delay_ms : Int := (base_delay_ms : Int) + jitter
    some (max new_delay_ms 0).toNat

end network_utils

/-- The network environment a strategy probe runs against: the outcome of
`self.connector.connect(&socket, config.timeout)` for each port, and what the
detector entry points `VersionDetector::detect_version` and
`SMBFingerprinter::fingerprint` return for each port.  Passing these as
functions makes each strategy a pure function of its simulated network
outcomes. -/
structure NetworkEnv where
  connect : Port → Except IOError Unit
  detect_version : Port → ServiceVersion
  fingerprint : Port → OSInfo

namespace StandardScan

/-- Rust `StandardScan::scan` (`impl ScanStrategy for StandardScan`,
`src/scanning/strategy.rs`, lines 42-92): a successful connect yields `Open`
and then optionally attaches service-version and OS information; a refused
connect yields `Closed`, a timed-out connect yields `Filtered`, any other
failure yields `Error(e.to_string())`. -/
def scan (env : NetworkEnv) (port : Port) (config : ScanConfig) :
    PortScanResult :=
  match env.connect port with
  | .ok _ =>
      let result := PortScanResult.new port PortStatus.Open
      let result :=
        if config.detect_versions then
          let version := env.detect_version port
          if version.service_name ≠ "Unknown" then result.with_version version
          else result
        else result
      let result :=
        if config.detect_os ∧ port = 445 then
          let os_info := env.fingerprint port
          let named := match os_info.os_name with
            | some n => n != "Unknown"
            | none => false
          if named then result.with_os_info os_info else result
        else result
      result
  | .error e =>
      if network_utils.is_connection_refused e then
        PortScanResult.new port PortStatus.Closed
      else if network_utils.is_timeout e then
        PortScanResult.new port PortStatus.Filtered
      else
        PortScanResult.new port (PortStatus.Error e.message)

end StandardScan

namespace StealthScan

/-- Rust `StealthScan::scan` (`impl ScanStrategy for StealthScan`,
`src/scanning/strategy.rs`, lines 120-183): if a delay between probes is
configured, a jittered delay is computed (`random_delay_jitter` with
`DELAY_JITTER_PERCENT`) and slept; the probe then falls back to the standard
connect — source-port binding is not attempted ("For now, fall back to
standard scan") — and the classification and detection logic is repeated
verbatim from `StandardScan::scan`.  `none` models the probe panicking
inside the jitter computation; `timestamp` is the clock value it reads. -/
def scan (env : NetworkEnv) (timestamp : Nat) (port : Port)
    (config : ScanConfig) : Option PortScanResult :=
  let body :=
    match env.connect port with
    | .ok _ =>
        let result := PortScanResult.new port PortStatus.Open
        let result :=
          if config.detect_versions then
            let version := env.detect_version port
            if version.service_name ≠ "Unknown" then result.with_version version
            else result
          else result
        let result :=
          if config.detect_os ∧ port = 445 then
            let os_info := env.fingerprint port
            let named := match os_info.os_name with
              | some n => n != "Unknown"
              | none => false
            if named then result.with_os_info os_info else result
          else result
        result
    | .error e =>
        if network_utils.is_connection_refused e then
          PortScanResult.new port PortStatus.Closed
        else if network_utils.is_timeout e then
          PortScanResult.new port PortStatus.Filtered
        else
          PortScanResult.new port (PortStatus.Error e.message)
  match config.delay_between_probes_ms with
  | some delay =>
      match network_utils.random_delay_jitter timestamp delay
          DELAY_JITTER_PERCENT with
      | none => none
      | some _ => some body
  | none => some body

end StealthScan

/-- Rust `ScanStrategyFactory::create` from `src/scanning/strategy.rs`: `true`
selects `StealthScan`, `false` selects `StandardScan`. -/
def ScanStrategyFactory.create_selects_stealth (config : ScanConfig) : Bool :=
  config.is_stealth_enabled

/-- C3: the per-port probe classifies by exactly this precedence — a
successful connect yields status `Open`; a refused connect yields the bare
`Closed` result; a timed-out connect yields the bare `Filtered` result; any
other failure yields the bare `Error` result carrying the failure
description.  The status is a function of the connect outcome alone: two
environments with the same outcome on a port give that port the same status,
whatever the detectors return. -/
theorem classify_precedence (env : NetworkEnv) (config : ScanConfig)
    (port : Port) :
    (∀ u, env.connect port = .ok u →
        (StandardScan.scan env port config).status = PortStatus.Open)
      ∧ (∀ e, env.connect port = .error e →
          e.kind = IOErrorKind.ConnectionRefused →
          StandardScan.scan env port config
            = PortScanResult.new port PortStatus.Closed)
      ∧ (∀ e, env.connect port = .error e → e.kind = IOErrorKind.TimedOut →
          StandardScan.scan env port config
            = PortScanResult.new port PortStatus.Filtered)
      ∧ (∀ e, env.connect port = .error e →
          e.kind ≠ IOErrorKind.ConnectionRefused →
          e.kind ≠ IOErrorKind.TimedOut →
          StandardScan.scan env port config
            = PortScanResult.new port (PortStatus.Error e.message))
      ∧ (∀ env₂ : NetworkEnv, env₂.connect port = env.connect port →
          (StandardScan.scan env₂ port config).status
            = (StandardScan.scan env port config).status) := by
  have hstatus : ∀ env' : NetworkEnv,
      (StandardScan.scan env' port config).status
        = match env'.connect port with
          | .ok _ => PortStatus.Open
          | .error e =>
              if network_utils.is_connection_refused e then PortStatus.Closed
              else if network_utils.is_timeout e then PortStatus.Filtered
              else PortStatus.Error e.message := by
    intro env'
    unfold StandardScan.scan
    cases env'.connect port with
    | ok u =>
        dsimp only
        repeat' split
        all_goals rfl
    | error e =>
        by_cases h1 : network_utils.is_connection_refused e <;>
          by_cases h2 : network_utils.is_timeout e <;>
            simp [h1, h2, PortScanResult.new]
  refine ⟨?_, ?_, ?_, ?_, ?_⟩
  · intro u h
    rw [hstatus env, h]
  · intro e h hk
    unfold StandardScan.scan
    rw [h]
    simp [network_utils.is_connection_refused, hk]
  · intro e h hk
    unfold StandardScan.scan
    rw [h]
    have : ¬ network_utils.is_connection_refused e = true := by
      simp [network_utils.is_connection_refused, hk]
    simp [this, network_utils.is_timeout, hk]
  · intro e h hk1 hk2
    unfold StandardScan.scan
    rw [h]
    simp [network_utils.is_connection_refused, network_utils.is_timeout, hk1, hk2]
  · intro env₂ h
    rw [hstatus env₂, hstatus env, h]

/-- Witness for C3 at concrete outcomes: four environments whose connect
results on port 80 are success, refused, timed out and reset respectively,
with the detection flags off. -/
theorem classify_precedence_witness :
    (StandardScan.scan
        { connect := fun _ => .ok (), detect_version := fun _ => .unknown,
          fingerprint := fun _ => .new } 80
        { target_ip := "127.0.0.1", scan_mode := .CommonPorts, timeout_ms := 500,
          verbose := false, detect_versions := false, detect_os := false,
          parallel := false, thread_count := 8, randomize_source_port := false,
          delay_between_probes_ms := none }).status = PortStatus.Open
      ∧ StandardScan.scan
          { connect := fun _ => .error ⟨.ConnectionRefused, "connection refused"⟩,
            detect_version := fun _ => .unknown, fingerprint := fun _ => .new } 80
          { target_ip := "127.0.0.1", scan_mode := .CommonPorts, timeout_ms := 500,
            verbose := false, detect_versions := false, detect_os := false,
            parallel := false, thread_count := 8, randomize_source_port := false,
            delay_between_probes_ms := none }
        = PortScanResult.new 80 PortStatus.Closed
      ∧ StandardScan.scan
          { connect := fun _ => .error ⟨.TimedOut, "timed out"⟩,
            detect_version := fun _ => .unknown, fingerprint := fun _ => .new } 80
          { target_ip := "127.0.0.1", scan_mode := .CommonPorts, timeout_ms := 500,
            verbose := false, detect_versions := false, detect_os := false,
            parallel := false, thread_count := 8, randomize_source_port := false,
            delay_between_probes_ms := none }
        = PortScanResult.new 80 PortStatus.Filtered
      ∧ StandardScan.scan
          { connect := fun _ => .error ⟨.ConnectionReset, "connection reset"⟩,
            detect_version := fun _ => .unknown, fingerprint := fun _ => .new } 80
          { target_ip := "127.0.0.1", scan_mode := .CommonPorts, timeout_ms := 500,
            verbose := false, detect_versions := false, detect_os := false,
            parallel := false, thread_count := 8, randomize_source_port := false,
            delay_between_probes_ms := none }
        = PortScanResult.new 80 (PortStatus.Error "connection reset") := by
  refine ⟨?_, ?_, ?_, ?_⟩
  · exact (classify_precedence
      { connect := fun _ => .ok (), detect_version := fun _ => .unknown,
        fingerprint := fun _ => .new }
      { target_ip := "127.0.0.1", scan_mode := .CommonPorts, timeout_ms := 500,
        verbose := false, detect_versions := false, detect_os := false,
        parallel := false, thread_count := 8, randomize_source_port := false,
        delay_between_probes_ms := none } 80).1 () rfl
  · exact (classify_precedence
      { connect := fun _ => .error ⟨.ConnectionRefused, "connection refused"⟩,
        detect_version := fun _ => .unknown, fingerprint := fun _ => .new }
      { target_ip := "127.0.0.1", scan_mode := .CommonPorts, timeout_ms := 500,
        verbose := false, detect_versions := false, detect_os := false,
        parallel := false, thread_count := 8, randomize_source_port := false,
        delay_between_probes_ms := none } 80).2.1
      ⟨.ConnectionRefused, "connection refused"⟩ rfl rfl
  · exact (classify_precedence
      { connect := fun _ => .error ⟨.TimedOut, "timed out"⟩,
        detect_version := fun _ => .unknown, fingerprint := fun _ => .new }
      { target_ip := "127.0.0.1", scan_mode := .CommonPorts, timeout_ms := 500,
        verbose := false, detect_versions := false, detect_os := false,
        parallel := false, thread_count := 8, randomize_source_port := false,
        delay_between_probes_ms := none } 80).2.2.1
      ⟨.TimedOut, "timed out"⟩ rfl rfl
  · exact (classify_precedence
      { connect := fun _ => .error ⟨.ConnectionReset, "connection reset"⟩,
        detect_version := fun _ => .unknown, fingerprint := fun _ => .new }
      { target_ip := "127.0.0.1", scan_mode := .CommonPorts, timeout_ms := 500,
        verbose := false, detect_versions := false, detect_os := false,
        parallel := false, thread_count := 8, randomize_source_port := false,
        delay_between_probes_ms := none } 80).2.2.2.1
      ⟨.ConnectionReset, "connection reset"⟩ rfl (by decide) (by decide)

/-- C9 (amended): for every port, every connector outcome and every detector
outcome, whenever the stealth probe reaches its connect step (no inter-probe
delay is configured, or the configured delay has a positive jitter range
`delay * DELAY_JITTER_PERCENT / 100`), the `PortScanResult` produced by
`StealthScan::scan` is exactly the one `StandardScan::scan` produces —
source-port binding is never attempted, so stealth degrades to standard
behavior with no crash and no skipped port.  With a configured delay whose
jitter range is zero the stealth probe panics first (see the C10
counterexample), which is the only deviation. -/
theorem stealth_equals_standard (env : NetworkEnv) (timestamp : Nat)
    (port : Port) (config : ScanConfig)
    (h : config.delay_between_probes_ms = none
      ∨ ∃ d, config.delay_between_probes_ms = some d
          ∧ 0 < d * DELAY_JITTER_PERCENT / 100) :
    StealthScan.scan env timestamp port config
      = some (StandardScan.scan env port config) := by
  unfold StealthScan.scan StandardScan.scan
  rcases h with h | ⟨d, hd, hpos⟩
  · rw [h]
  · rw [hd]
    unfold network_utils.random_delay_jitter
    have : ¬ d * DELAY_JITTER_PERCENT / 100 * 2 = 0 := by omega
    simp only [this, if_false]

/-- Witness for C9 at a concrete input: a 100 ms configured delay (jitter
range 50 > 0), timestamp 7, port 445 with OS detection on and an environment
whose connect succeeds — the stealth result coincides with the standard one. -/
theorem stealth_equals_standard_witness :
    StealthScan.scan
        { connect := fun _ => .ok (),
          detect_version := fun _ => .unknown,
          fingerprint := fun _ =>
            (OSInfo.new.with_smb_version "SMB 2.x/3.x").with_os_name "Windows" }
        7 445
        { target_ip := "127.0.0.1", scan_mode := .CommonPorts, timeout_ms := 500,
          verbose := false, detect_versions := false, detect_os := true,
          parallel := false, thread_count := 8, randomize_source_port := false,
          delay_between_probes_ms := some 100 }
      = some (StandardScan.scan
          { connect := fun _ => .ok (),
            detect_version := fun _ => .unknown,
            fingerprint := fun _ =>
              (OSInfo.new.with_smb_version "SMB 2.x/3.x").with_os_name "Windows" }
          445
          { target_ip := "127.0.0.1", scan_mode := .CommonPorts, timeout_ms := 500,
            verbose := false, detect_versions := false, detect_os := true,
            parallel := false, thread_count := 8, randomize_source_port := false,
            delay_between_probes_ms := some 100 }) :=
  stealth_equals_standard
    { connect := fun _ => .ok (),
      detect_version := fun _ => .unknown,
      fingerprint := fun _ =>
        (OSInfo.new.with_smb_version "SMB 2.x/3.x").with_os_name "Windows" }
    7 445
    { target_ip := "127.0.0.1", scan_mode := .CommonPorts, timeout_ms := 500,
      verbose := false, detect_versions := false, detect_os := true,
      parallel := false, thread_count := 8, randomize_source_port := false,
      delay_between_probes_ms := some 100 }
    (Or.inr ⟨100, rfl, by decide⟩)

/-- Counterexample to C9 as stated: with a configured 1 ms inter-probe delay
the stealth probe panics in the jitter computation (remainder by zero) before
connecting, so for a connector outcome on which the standard strategy returns
an `Open` result, the stealth strategy produces no result at all — a crash,
not the standard result. -/
theorem stealth_crashes_on_one_ms_delay :
    StealthScan.scan
        { connect := fun _ => .ok (), detect_version := fun _ => .unknown,
          fingerprint := fun _ => .new }
        0 80
        { target_ip := "127.0.0.1", scan_mode := .CommonPorts, timeout_ms := 500,
          verbose := false, detect_versions := false, detect_os := false,
          parallel := false, thread_count := 8, randomize_source_port := false,
          delay_between_probes_ms := some 1 }
      = none
      ∧ StandardScan.scan
          { connect := fun _ => .ok (), detect_version := fun _ => .unknown,
            fingerprint := fun _ => .new }
          80
          { target_ip := "127.0.0.1", scan_mode := .CommonPorts, timeout_ms := 500,
            verbose := false, detect_versions := false, detect_os := false,
            parallel := false, thread_count := 8, randomize_source_port := false,
            delay_between_probes_ms := some 1 }
        = PortScanResult.new 80 PortStatus.Open := by
  constructor
  · rfl
  · rfl

/-- C10: the jittered-delay computation `network_utils::random_delay_jitter`
used by the stealth strategy is not total — whenever the jitter range
`base_delay_ms * jitter_percent / 100` rounds to zero (for example a 1 ms
base delay at the configured 50 percent jitter, or any zero jitter
percentage) the code computes `timestamp % 0` and panics, for every clock
value; when the jitter range is positive the computation does return a delay,
which is at most `base_delay_ms + base_delay_ms * jitter_percent / 100`
milliseconds. -/
theorem random_delay_jitter_panics_on_zero_range (timestamp : Nat) :
    network_utils.random_delay_jitter timestamp 1 50 = none
      ∧ network_utils.random_delay_jitter timestamp 1 DELAY_JITTER_PERCENT = none
      ∧ (∀ base_delay_ms jitter_percent,
          base_delay_ms * jitter_percent / 100 = 0 →
          network_utils.random_delay_jitter timestamp base_delay_ms
            jitter_percent = none)
      ∧ (∀ base_delay_ms jitter_percent,
          0 < base_delay_ms * jitter_percent / 100 →
          ∃ delay, network_utils.random_delay_jitter timestamp base_delay_ms
              jitter_percent = some delay
            ∧ delay ≤ base_delay_ms + base_delay_ms * jitter_percent / 100) := by
  refine ⟨rfl, rfl, ?_, ?_⟩
  · intro base jp h
    unfold network_utils.random_delay_jitter
    simp [h]
  · intro base jp h
    unfold network_utils.random_delay_jitter
    have h2 : ¬ base * jp / 100 * 2 = 0 := by omega
    simp only [h2, if_false]
    refine ⟨_, rfl, ?_⟩
    have hmod : (timestamp % (base * jp / 100 * 2) : Nat)
        < base * jp / 100 * 2 := Nat.mod_lt _ (by omega)
    have hle : ((timestamp % (base * jp / 100 * 2) : Nat) : Int)
        - (base * jp / 100 : Int) ≤ (base * jp / 100 : Int) := by
      have := Int.ofNat_le.mpr (Nat.le_of_lt_succ (Nat.lt_succ_of_lt hmod))
      push_cast at this ⊢
      omega
    have hcast : ((timestamp % (base * jp / 100 * 2) : Nat) : Int) ≥ 0 :=
      Int.ofNat_nonneg _
    omega

/-- Witness for C10: at timestamp 0 the 1 ms / 50 percent case panics, a zero
jitter percentage panics, and a 100 ms delay at 50 percent jitter yields a
delay of at most 150 ms. -/
theorem random_delay_jitter_panics_on_zero_range_witness :
    network_utils.random_delay_jitter 0 1 50 = none
      ∧ network_utils.random_delay_jitter 0 200 0 = none
      ∧ ∃ delay, network_utils.random_delay_jitter 0 100 50 = some delay
          ∧ delay ≤ 100 + 100 * 50 / 100 :=
  ⟨(random_delay_jitter_panics_on_zero_range 0).1,
   (random_delay_jitter_panics_on_zero_range 0).2.2.1 200 0 (by decide),
   (random_delay_jitter_panics_on_zero_range 0).2.2.2 100 50 (by decide)⟩

namespace SMBFingerprinter

/-- Rust `SMBFingerprinter::parse_smb_response` from
`src/application/detect_os.rs`, lines 162-198.  `data` is the byte slice of
the negotiate response (each entry a byte value).  A response shorter than 32
bytes yields no detection; bytes `[4..8]` equal to the SMB2/3 magic
`0xFE 'S' 'M' 'B'` yield smb_version "SMB 2.x/3.x", os_name "Windows" and
os_version "7 or later"; bytes `[4..8]` equal to the SMB1 magic
`0xFF 'S' 'M' 'B'` yield smb_version "SMB 1.0" and os_name "Windows/Samba";
anything else yields no detection. -/
def parse_smb_response (data : List Nat) : OSInfo :=
  if data.length < 32 then OSInfo.new
  else
    let os_info := OSInfo.new
    if data.length > 4 ∧ (data.drop 4).take 4 = [0xfe, 0x53, 0x4d, 0x42] then
      ((os_info.with_smb_version "SMB 2.x/3.x").with_os_name
        "Windows").with_os_version "7 or later"
    else if data.length > 4 ∧ (data.drop 4).take 4 = [0xff, 0x53, 0x4d, 0x42]
      then
      (os_info.with_smb_version "SMB 1.0").with_os_name "Windows/Samba"
    else
      os_info

end SMBFingerprinter

/-- C6: for every SMB negotiate response buffer, a buffer shorter than 32
bytes yields an `OSInfo` with `is_detected() = false`, and a buffer of at
least 32 bytes whose bytes `[4..8]` equal the SMB2/3 magic
`0xFE 'S' 'M' 'B'` yields os_name "Windows", os_version "7 or later" and an
smb_version string containing "2" and "3". -/
theorem smb_response_classification (data : List Nat) :
    (data.length < 32 →
        (SMBFingerprinter.parse_smb_response data).is_detected = false)
      ∧ (32 ≤ data.length →
          (data.drop 4).take 4 = [0xfe, 0x53, 0x4d, 0x42] →
          (SMBFingerprinter.parse_smb_response data).os_name = some "Windows"
            ∧ (SMBFingerprinter.parse_smb_response data).os_version
                = some "7 or later"
            ∧ ∃ s, (SMBFingerprinter.parse_smb_response data).smb_version
                  = some s
                ∧ ('2' ∈ s.data ∨ '3' ∈ s.data)) := by
  constructor
  · intro h
    unfold SMBFingerprinter.parse_smb_response
    simp [h, OSInfo.new, OSInfo.is_detected]
  · intro hlen hmagic
    have hshort : ¬ data.length < 32 := by omega
    have hgt : data.length > 4 := by omega
    unfold SMBFingerprinter.parse_smb_response
    simp only [hshort, if_false, hgt, hmagic, and_self, true_and, if_true]
    refine ⟨rfl, rfl, "SMB 2.x/3.x", rfl, ?_⟩
    left
    decide

/-- Witness for C6: a concrete 8-byte buffer is too short to be detected, and
a concrete 32-byte buffer carrying the SMB2/3 magic at offset 4 is classified
as modern Windows. -/
theorem smb_response_classification_witness :
    (SMBFingerprinter.parse_smb_response
        [0, 0, 0, 4, 0xfe, 0x53, 0x4d, 0x42]).is_detected = false
      ∧ (SMBFingerprinter.parse_smb_response
            [0, 0, 0, 28, 0xfe, 0x53, 0x4d, 0x42, 0, 0, 0, 0, 0, 0, 0, 0,
             0, 0, 0, 0, 0, 0, 0, 0, 0, 0, 0, 0, 0, 0, 0, 0]).os_name
          = some "Windows"
      ∧ (SMBFingerprinter.parse_smb_response
            [0, 0, 0, 28, 0xfe, 0x53, 0x4d, 0x42, 0, 0, 0, 0, 0, 0, 0, 0,
             0, 0, 0, 0, 0, 0, 0, 0, 0, 0, 0, 0, 0, 0, 0, 0]).os_version
          = some "7 or later"
      ∧ ∃ s, (SMBFingerprinter.parse_smb_response
            [0, 0, 0, 28, 0xfe, 0x53, 0x4d, 0x42, 0, 0, 0, 0, 0, 0, 0, 0,
             0, 0, 0, 0, 0, 0, 0, 0, 0, 0, 0, 0, 0, 0, 0, 0]).smb_version
            = some s
          ∧ ('2' ∈ s.data ∨ '3' ∈ s.data) := by
  refine ⟨?_, ?_⟩
  · exact (smb_response_classification
      [0, 0, 0, 4, 0xfe, 0x53, 0x4d, 0x42]).1 (by decide)
  · have h := (smb_response_classification
      [0, 0, 0, 28, 0xfe, 0x53, 0x4d, 0x42, 0, 0, 0, 0, 0, 0, 0, 0,
       0, 0, 0, 0, 0, 0, 0, 0, 0, 0, 0, 0, 0, 0, 0, 0]).2
      (by decide) (by decide)
    exact ⟨h.1, h.2.1, h.2.2⟩

namespace rust_str

/-- Rust `str::to_lowercase`.  The banners the engine matches are ASCII, where
`Char.toLower` agrees with the Rust Unicode lowering. -/
def to_lowercase (s : String) : String :=
  String.mk (s.data.map Char.toLower)

/-- Rust `str::starts_with` for a string pattern. -/
def starts_with (s pat : String) : Bool :=
  pat.data.isPrefixOf s.data

/-- Rust `str::ends_with` for a string pattern. -/
def ends_with (s pat : String) : Bool :=
  pat.data.isSuffixOf s.data

/-- Rust `str::contains` for a string pattern, on character lists: some contiguous
run of `hay` equals `pat`. -/
def contains_aux (hay pat : List Char) : Bool :=
  match hay with
  | [] => pat.isEmpty
  | c :: t => pat.isPrefixOf (c :: t) || contains_aux t pat

/-- Rust `str::contains` for a string pattern. -/
def contains (s pat : String) : Bool :=
  contains_aux s.data pat.data

/-- Rust `str::split` on a character predicate; empty pieces are kept, as in
Rust. -/
def split_aux (p : Char → Bool) : List Char → List Char → List String
  | [], cur => [String.mk cur.reverse]
  | c :: rest, cur =>
      if p c then String.mk cur.reverse :: split_aux p rest []
      else split_aux p rest (c :: cur)

/-- Rust `str::split` on a character predicate. -/
def split (s : String) (p : Char → Bool) : List String :=
  split_aux p s.data []

/-- Rust `str::split_whitespace`: split on whitespace with empty pieces dropped. -/
def split_whitespace (s : String) : List String :=
  (split s Char.isWhitespace).filter (fun piece => !piece.data.isEmpty)

/-- One step per removed occurrence of `str::trim_start_matches`: repeatedly
strip the pattern from the front while it is a (non-empty) prefix.  The fuel
is the length of the subject, enough since every strip removes at least one
character. -/
def trim_start_matches_aux (pat : List Char) : Nat → List Char → List Char
  | 0, s => s
  | fuel + 1, s =>
      if !pat.isEmpty && pat.isPrefixOf s then
        trim_start_matches_aux pat fuel (s.drop pat.length)
      else s

/-- Rust `str::trim_start_matches` for a string pattern. -/
def trim_start_matches (s pat : String) : String :=
  String.mk (trim_start_matches_aux pat.data s.data.length s.data)

/-- Rust `str::trim`: whitespace stripped from both ends. -/
def trim (s : String) : String :=
  String.mk
    (((s.data.dropWhile Char.isWhitespace).reverse.dropWhile
      Char.isWhitespace).reverse)

/-- Rust `str::lines`: split on `\n`, drop a final empty piece produced by a
trailing newline, strip one trailing `\r` from each line. -/
def lines (s : String) : List String :=
  let raw := split s (fun c => c == Char.ofNat 10)
  let raw := match raw.getLast? with
    | some last => if last.data.isEmpty then raw.dropLast else raw
    | none => raw
  raw.map (fun l =>
    if ends_with l (String.mk [Char.ofNat 13]) then String.mk l.data.dropLast
    else l)

end rust_str

namespace VersionDetector

/-- Rust `VersionDetector::parse_banner` from `src/application/detect_service.rs`,
lines 146-181: the banner text is classified by case-insensitive rules in
priority order — an `ssh-` prefix yields service "SSH" with the version
token and the second whitespace-delimited field as banner (or, with fewer
than two fields, the raw banner); an `http/` occurrence yields "HTTP" with
the `Server:` header line (trimmed) or the literal banner "HTTP"; an `ftp`
occurrence or a leading `220` yields "FTP" with the raw banner; a leading
`220 ` with `smtp`/`mail` yields "SMTP" with the raw banner; otherwise
service "unknown" with the raw banner. -/
def parse_banner (port : Port) (banner : String) : ServiceVersion :=
  let banner_lower := rust_str.to_lowercase banner
  if rust_str.starts_with banner_lower "ssh-" then
    let parts := rust_str.split_whitespace banner
    if parts.length ≥ 2 then
      ((ServiceVersion.new "SSH" "tcp").with_version
          (rust_str.trim_start_matches (parts.getD 0 "") "SSH-")).with_banner
        (parts.getD 1 "")
    else (ServiceVersion.new "SSH" "tcp").with_banner banner
  else if rust_str.contains banner_lower "http/" then
    match (rust_str.lines banner).find?
        (fun l => rust_str.starts_with (rust_str.to_lowercase l) "server:") with
    | some server_line =>
        let server := rust_str.trim
          (rust_str.trim_start_matches server_line "Server:")
        (ServiceVersion.new "HTTP" "tcp").with_banner server
    | none => (ServiceVersion.new "HTTP" "tcp").with_banner "HTTP"
  else if rust_str.contains banner_lower "ftp"
      || rust_str.starts_with banner "220" then
    (ServiceVersion.new "FTP" "tcp").with_banner banner
  else if rust_str.starts_with banner "220 "
      && (rust_str.contains banner_lower "smtp"
        || rust_str.contains banner_lower "mail") then
    (ServiceVersion.new "SMTP" "tcp").with_banner banner
  else
    (ServiceVersion.new "unknown" "tcp").with_banner banner

end VersionDetector

/-- C7 (amended): parsing the banner
`SSH-2.0-OpenSSH_8.2p1 Ubuntu-4ubuntu0.5` produces service_name "SSH" with
the protocol-version token `2.0-OpenSSH_8.2p1` (which contains "2.0") as
version, and the banner field holding the second whitespace-delimited field
`Ubuntu-4ubuntu0.5` — the product field after the version token — rather
than the verbatim input banner. -/
theorem parse_banner_ssh :
    VersionDetector.parse_banner 22 "SSH-2.0-OpenSSH_8.2p1 Ubuntu-4ubuntu0.5"
        = { service_name := "SSH", version := some "2.0-OpenSSH_8.2p1",
            banner := some "Ubuntu-4ubuntu0.5", protocol := "tcp" }
      ∧ ∃ v, (VersionDetector.parse_banner 22
            "SSH-2.0-OpenSSH_8.2p1 Ubuntu-4ubuntu0.5").version = some v
          ∧ rust_str.contains v "2.0" = true := by
  refine ⟨by decide, "2.0-OpenSSH_8.2p1", by decide, by decide⟩

/-- Counterexample to C7 as stated: for the input
`SSH-2.0-OpenSSH_8.2p1 Ubuntu-4ubuntu0.5` the banner field of the parse
result is `Ubuntu-4ubuntu0.5`, not the input banner verbatim. -/
theorem parse_banner_ssh_not_verbatim :
    (VersionDetector.parse_banner 22
        "SSH-2.0-OpenSSH_8.2p1 Ubuntu-4ubuntu0.5").banner
        = some "Ubuntu-4ubuntu0.5"
      ∧ (VersionDetector.parse_banner 22
          "SSH-2.0-OpenSSH_8.2p1 Ubuntu-4ubuntu0.5").banner
        ≠ some "SSH-2.0-OpenSSH_8.2p1 Ubuntu-4ubuntu0.5" := by
  constructor
  · decide
  · decide

/-- C8 (amended): when `parallel` is set, for every `thread_count` accepted
by validation the effective concurrency limit the orchestrator installs —
`ParallelExecutor::new(thread_count * 4)`, which clamps its argument as
`.min(2000).max(10)` — lies in the interval `[10, 2000]`; it equals
`thread_count * 4` whenever that product already lies in the interval.  The
bound is 2000 permits, not 256. -/
theorem effective_concurrency_clamped (thread_count : Nat)
    (h : 0 < thread_count) :
    10 ≤ scan_all_max_concurrent thread_count
      ∧ scan_all_max_concurrent thread_count ≤ 2000
      ∧ (10 ≤ thread_count * 4 → thread_count * 4 ≤ 2000 →
          scan_all_max_concurrent thread_count = thread_count * 4) := by
  unfold scan_all_max_concurrent ParallelExecutor.new
  omega

/-- Witness for C8 at `thread_count = 8` (the default): the effective limit
is 32, inside `[10, 2000]`. -/
theorem effective_concurrency_clamped_witness :
    10 ≤ scan_all_max_concurrent 8
      ∧ scan_all_max_concurrent 8 ≤ 2000
      ∧ (10 ≤ 8 * 4 → 8 * 4 ≤ 2000 → scan_all_max_concurrent 8 = 8 * 4) :=
  effective_concurrency_clamped 8 (by decide)

/-- Counterexample to C8 as stated: `thread_count = 100` passes validation
(it is nonzero), yet the parallel executor is created with
`100 * 4 = 400 > 256` concurrency permits — the effective limit exceeds 256,
so no clamp to `[1, 256]` exists. -/
theorem effective_concurrency_exceeds_256 :
    (0 : Nat) < 100
      ∧ scan_all_max_concurrent 100 = 400
      ∧ 256 < scan_all_max_concurrent 100 := by
  refine ⟨by decide, by decide, by decide⟩

end PortScanner
